import Mathlib

/-!
Verification of the TQRS scoring engine (src/tqrs) against its
natural-language specification.

The Python source is shallowly embedded: pure functions become Lean
functions, Python `int | str` score unions become an inductive type,
machine floats used only for percentage/threshold comparisons are
modelled with rationals (for the reachable integer score inputs the
float and rational computations agree on every threshold comparison),
and regex-based text predicates of the rule evaluators are abstracted
as boolean inputs, with the control flow around them translated
verbatim.
-/

namespace TQRS

/-- The `int | str` score union carried by `RuleResult.score`
(src/tqrs/rules/base.py). A Python `int` becomes `num`, a Python `str`
becomes `str`. -/
inductive PyScore where
  | num (n : Int)
  | str (s : String)
deriving DecidableEq, Repr

/-- RuleResult (src/tqrs/rules/base.py, class RuleResult). The pydantic
model fields, with `score : int | str` as `PyScore`. -/
structure RuleResult where
  criterion_id : String
  passed : Bool
  score : PyScore
  max_score : Option Int := none
  evidence : String := ""
  reasoning : String := ""
  coaching : Option String := none
deriving DecidableEq, Repr

/-- Python str.upper for the ASCII strings that occur as scores,
as a character-wise map (kernel-reducible, unlike String.toUpper). -/
def pyUpper (s : String) : String := String.mk (s.data.map Char.toUpper)

/-- Python str.lower for the ASCII strings the engine handles. -/
def pyLower (s : String) : String := String.mk (s.data.map Char.toLower)

/-- Python str.strip() for the whitespace the engine encounters. -/
def pyTrim (s : String) : String :=
  String.mk (((s.data.dropWhile Char.isWhitespace).reverse.dropWhile
    Char.isWhitespace).reverse)

/-- Python s.startswith(p). -/
def pyStartsWith (s p : String) : Bool := p.data.isPrefixOf s.data

/-- Decimal digit run to Nat, None on empty input or a non-digit. -/
def digitsToNat : List Char → Option Nat
  | [] => none
  | cs => go cs 0
where go : List Char → Nat → Option Nat
  | [], acc => some acc
  | c :: rest, acc =>
    if c.isDigit then go rest (acc * 10 + (c.toNat - 48)) else none

/-- Python int(s) for the score strings the engine produces (an
optional sign followed by decimal digits, e.g. "-15"; anything else
raises, modelled as None). -/
def pyToInt (s : String) : Option Int :=
  match s.data with
  | '-' :: rest => (digitsToNat rest).map (fun n => -(n : Int))
  | '+' :: rest => (digitsToNat rest).map Int.ofNat
  | cs => (digitsToNat cs).map Int.ofNat

/-- Fuel-indexed splitter behind pySplitOn: scan left to right,
cutting at each leftmost non-overlapping occurrence of the non-empty
separator. The fuel (the input length) bounds the recursion. -/
def splitOnFuel (sep : List Char) : Nat → List Char → List Char → List (List Char)
  | 0, _, acc => [acc.reverse]
  | fuel + 1, cs, acc =>
    match cs with
    | [] => [acc.reverse]
    | c :: rest =>
      if sep.isPrefixOf (c :: rest) then
        acc.reverse :: splitOnFuel sep fuel (List.drop (sep.length - 1) rest) []
      else splitOnFuel sep fuel rest (c :: acc)

/-- Python s.split(sep) for a non-empty separator. -/
def pySplitOn (s sep : String) : List String :=
  (splitOnFuel sep.data s.data.length s.data []).map String.mk

/-- RuleResult.is_auto_fail (base.py lines 32-35):
`isinstance(self.score, str) and self.score.upper() == "FAIL"`. -/
def RuleResult.auto_fail_flag (r : RuleResult) : Bool :=
  match r.score with
  | .str s => pyUpper s == "FAIL"
  | .num _ => false

/-- RuleResult.is_deduction (base.py lines 25-30): string scores are
deductions when they start with "-", numeric scores when negative. -/
def RuleResult.deduction_flag (r : RuleResult) : Bool :=
  match r.score with
  | .str s => pyStartsWith s "-"
  | .num n => n < 0

/-- RuleResult.numeric_score (base.py lines 37-50): int scores as-is,
PASS/N-A/FAIL map to 0, other strings via int() with 0 on failure. -/
def RuleResult.numeric_score (r : RuleResult) : Int :=
  match r.score with
  | .num n => n
  | .str s =>
    if pyUpper s == "PASS" || pyUpper s == "N/A" then 0
    else if pyUpper s == "FAIL" then 0
    else match pyToInt s with
      | some n => n
      | none => 0

/-- TemplateType (tqrs.models.evaluation; the module itself is not in
the source tree, but calculator.py and templates.py enumerate exactly
these three members). -/
inductive TemplateType where
  | incidentLogging
  | incidentHandling
  | customerService
deriving DecidableEq, Repr

/-- Performance bands. Modelled from the spec and from the sibling
generation of the data model (src/onsitereview/models/evaluation.py,
class PerformanceBand), since tqrs.models.evaluation is absent from
the source tree: Blue >= 95, Green >= 90, Yellow >= 75, Red >= 50,
else Purple. -/
inductive PerformanceBand where
  | blue
  | green
  | yellow
  | red
  | purple
deriving DecidableEq, Repr

/-- PerformanceBand.from_percentage
(src/onsitereview/models/evaluation.py lines 24-35); the float
percentage is modelled as a rational. -/
def PerformanceBand.ofPercentage (p : ℚ) : PerformanceBand :=
  if p ≥ 95 then .blue
  else if p ≥ 90 then .green
  else if p ≥ 75 then .yellow
  else if p ≥ 50 then .red
  else .purple

/-- TemplateCriterion (src/tqrs/scoring/templates.py). The `source`
and `required` fields do not influence scoring and are kept as plain
data. -/
structure TemplateCriterion where
  criterion_id : String
  criterion_name : String
  max_points : Int
  source : String
  required : Bool := true
  is_deduction : Bool := false
deriving DecidableEq, Repr

/-- INCIDENT_LOGGING_CRITERIA (templates.py lines 22-81). -/
def INCIDENT_LOGGING_CRITERIA : List TemplateCriterion :=
  [ { criterion_id := "critical_process_followed", criterion_name := "Critical Process",
      max_points := 0, source := "rules", is_deduction := true },
    { criterion_id := "validation_performed", criterion_name := "Validation",
      max_points := 0, source := "rules", is_deduction := true },
    { criterion_id := "correct_category", criterion_name := "Category",
      max_points := 10, source := "rules" },
    { criterion_id := "correct_subcategory", criterion_name := "Subcategory",
      max_points := 10, source := "rules" },
    { criterion_id := "correct_service", criterion_name := "Service",
      max_points := 10, source := "rules" },
    { criterion_id := "correct_ci", criterion_name := "Configuration Item",
      max_points := 10, source := "rules" },
    { criterion_id := "short_description_format", criterion_name := "Short Description",
      max_points := 8, source := "rules" },
    { criterion_id := "accurate_description", criterion_name := "Description",
      max_points := 20, source := "llm" },
    { criterion_id := "spelling_grammar", criterion_name := "Spelling/Grammar",
      max_points := 2, source := "llm" } ]

/-- INCIDENT_HANDLING_CRITERIA (templates.py lines 84-137). -/
def INCIDENT_HANDLING_CRITERIA : List TemplateCriterion :=
  [ { criterion_id := "critical_process_followed", criterion_name := "Critical Process",
      max_points := 0, source := "rules", is_deduction := true },
    { criterion_id := "validation_performed", criterion_name := "Validation",
      max_points := 0, source := "rules", is_deduction := true },
    { criterion_id := "correct_priority", criterion_name := "Priority",
      max_points := 5, source := "rules" },
    { criterion_id := "troubleshooting_quality", criterion_name := "Troubleshooting",
      max_points := 20, source := "llm" },
    { criterion_id := "interaction_vs_incident", criterion_name := "Interaction vs Incident",
      max_points := 5, source := "rules" },
    { criterion_id := "routing_resolving", criterion_name := "Routing/Resolving",
      max_points := 20, source := "llm" },
    { criterion_id := "resolution_code", criterion_name := "Resolution Code",
      max_points := 5, source := "rules" },
    { criterion_id := "resolution_notes", criterion_name := "Resolution Notes",
      max_points := 15, source := "llm" } ]

/-- CUSTOMER_SERVICE_CRITERIA (templates.py lines 140-199). -/
def CUSTOMER_SERVICE_CRITERIA : List TemplateCriterion :=
  [ { criterion_id := "critical_process_followed", criterion_name := "Critical Process",
      max_points := 0, source := "rules", is_deduction := true },
    { criterion_id := "validation_performed", criterion_name := "Validation",
      max_points := 0, source := "rules", is_deduction := true },
    { criterion_id := "greeting", criterion_name := "Greeting",
      max_points := 5, source := "llm" },
    { criterion_id := "offer_work_around", criterion_name := "Offer Work Around",
      max_points := 10, source := "llm" },
    { criterion_id := "necessary_troubleshooting", criterion_name := "Necessary Troubleshooting",
      max_points := 10, source := "llm" },
    { criterion_id := "self_resolve_training", criterion_name := "Self-Resolve Training",
      max_points := 10, source := "llm" },
    { criterion_id := "resolution_follow_through", criterion_name := "Resolution Follow-through",
      max_points := 10, source := "llm" },
    { criterion_id := "closing_message", criterion_name := "Closing Message",
      max_points := 5, source := "llm" },
    { criterion_id := "general_customer_service", criterion_name := "General Customer Service",
      max_points := 20, source := "llm" } ]

/-- TEMPLATE_CRITERIA (templates.py lines 203-207). -/
def TEMPLATE_CRITERIA : TemplateType → List TemplateCriterion
  | .incidentLogging => INCIDENT_LOGGING_CRITERIA
  | .incidentHandling => INCIDENT_HANDLING_CRITERIA
  | .customerService => CUSTOMER_SERVICE_CRITERIA

/-- get_criterion_by_id (templates.py lines 231-238): first criterion
of the template with the given id, None if absent. -/
def get_criterion_by_id (template : TemplateType) (criterionId : String) :
    Option TemplateCriterion :=
  (TEMPLATE_CRITERIA template).find? (fun c => c.criterion_id == criterionId)

/-- ScoringCalculator._template_max_scores (calculator.py lines 32-36):
each of the three templates maps to 70. -/
def templateMaxScore : TemplateType → Int
  | .incidentLogging => 70
  | .incidentHandling => 70
  | .customerService => 70

/-- ScoringResult (calculator.py lines 10-22). The band is a
`PerformanceBand`; the rest mirrors the dataclass. -/
structure ScoringResult where
  base_score : Int
  validation_deduction : Int
  critical_process_deduction : Int
  final_score : Int
  max_score : Int
  auto_fail : Bool
  auto_fail_reason : Option String
  band : PerformanceBand
  passed : Bool
deriving DecidableEq, Repr

/-- The canned auto-fail message chosen inside check_auto_fail
(calculator.py lines 178-185) for a failing result. -/
def autoFailMessage (r : RuleResult) : String :=
  if r.criterion_id == "validation_performed" then
    "Validation not performed - colleague identity not verified"
  else if r.criterion_id == "critical_process_followed" then
    "Critical password process failure - security violation"
  else
    "Auto-fail on criterion: " ++ r.criterion_id

/-- ScoringCalculator.check_auto_fail (calculator.py lines 164-187):
return at the first result whose is_auto_fail property holds, with the
canned reason for its criterion id; otherwise (False, None). -/
def check_auto_fail (results : List RuleResult) : Bool × Option String :=
  match results.find? (fun r => r.auto_fail_flag) with
  | some r => (true, some (autoFailMessage r))
  | none => (false, none)

/-- The per-result contribution inside the loop of
ScoringCalculator._calculate_base_score (calculator.py lines 109-131):
skip results of deduction criteria; skip PASS/FAIL/N-A strings; parse
other strings with int() skipping negatives and parse failures; add
non-negative ints. -/
def baseScoreContribution (template : TemplateType) (r : RuleResult) : Int :=
  match get_criterion_by_id template r.criterion_id with
  | some c =>
    if c.is_deduction then 0 else
    match r.score with
    | .str s =>
      if pyUpper s == "PASS" || pyUpper s == "FAIL" || pyUpper s == "N/A" then 0
      else (match pyToInt s with
        | some v => if v < 0 then 0 else v
        | none => 0)
    | .num n => if n ≥ 0 then n else 0
  | none =>
    match r.score with
    | .str s =>
      if pyUpper s == "PASS" || pyUpper s == "FAIL" || pyUpper s == "N/A" then 0
      else (match pyToInt s with
        | some v => if v < 0 then 0 else v
        | none => 0)
    | .num n => if n ≥ 0 then n else 0

/-- ScoringCalculator._calculate_base_score (calculator.py lines
101-133): left fold of the contributions starting from 0. There is no
clamp against the template maximum anywhere in the function. -/
def calculate_base_score (results : List RuleResult) (template : TemplateType) : Int :=
  results.foldl (fun total r => total + baseScoreContribution template r) 0

/-- The score test for the validation deduction in _get_deductions
(calculator.py lines 151-154): the string "-15" or the int -15. -/
def scoreIsNeg15 : PyScore → Bool
  | .str s => s == "-15"
  | .num n => n == -15

/-- The score test for the critical-process deduction in
_get_deductions (calculator.py lines 157-160): "-35" or -35. -/
def scoreIsNeg35 : PyScore → Bool
  | .str s => s == "-35"
  | .num n => n == -35

/-- One iteration of the loop in ScoringCalculator._get_deductions
(calculator.py lines 149-160): the pair state is
(validation_deduction, critical_process_deduction). -/
def deductionStep (acc : Int × Int) (r : RuleResult) : Int × Int :=
  if r.criterion_id == "validation_performed" then
    (if scoreIsNeg15 r.score then -15 else acc.1, acc.2)
  else if r.criterion_id == "critical_process_followed" then
    (acc.1, if scoreIsNeg35 r.score then -35 else acc.2)
  else acc

/-- ScoringCalculator._get_deductions (calculator.py lines 135-162). -/
def get_deductions (results : List RuleResult) : Int × Int :=
  results.foldl deductionStep (0, 0)

/-- ScoringCalculator.calculate_score (calculator.py lines 38-99).
The float percentage arithmetic is modelled with rationals; for the
integer final scores and the max of 70 the two agree on every
comparison against the thresholds 95, 90, 75 and 50. -/
def calculate_score (rule_results llm_results : List RuleResult)
    (template : TemplateType) : ScoringResult :=
  let all_results := rule_results ++ llm_results
  let af := check_auto_fail all_results
  if af.1 then
    { base_score := 0
      validation_deduction := 0
      critical_process_deduction := 0
      final_score := 0
      max_score := templateMaxScore template
      auto_fail := true
      auto_fail_reason := af.2
      band := .purple
      passed := false }
  else
    let base_score := calculate_base_score all_results template
    let ded := get_deductions all_results
    let final_score := max 0 (base_score + ded.1 + ded.2)
    let max_score := templateMaxScore template
    let percentage : ℚ :=
      if max_score > 0 then ((final_score : ℚ) / (max_score : ℚ)) * 100 else 0
    { base_score := base_score
      validation_deduction := ded.1
      critical_process_deduction := ded.2
      final_score := final_score
      max_score := max_score
      auto_fail := false
      auto_fail_reason := none
      band := PerformanceBand.ofPercentage percentage
      passed := percentage ≥ 90 }

/-! ## Validation detector (src/tqrs/rules/validation.py)

The regex helper predicates (_has_okta_validation,
_has_guest_chat_validation, _has_general_validation_mention,
_check_validation_elements) and the evidence extractor
(_extract_validation_evidence) inspect ticket text with regular
expressions; they are abstracted here as boolean/string inputs, and
the branching of each channel evaluator around them is translated
verbatim. -/

/-- The result of _check_validation_elements (validation.py lines
330-337): one flag per element of VALIDATION_ELEMENTS, in its dict
insertion order name, employee_id, location. -/
structure ValidationElements where
  name : Bool
  employee_id : Bool
  location : Bool
deriving DecidableEq, Repr

/-- elements_found (validation.py line 117): keys whose flag holds,
in dict order. -/
def ValidationElements.found (e : ValidationElements) : List String :=
  (if e.name then ["name"] else []) ++
  (if e.employee_id then ["employee_id"] else []) ++
  (if e.location then ["location"] else [])

/-- The missing keys (validation.py line 131). -/
def ValidationElements.missing (e : ValidationElements) : List String :=
  (if e.name then [] else ["name"]) ++
  (if e.employee_id then [] else ["employee_id"]) ++
  (if e.location then [] else ["location"])

/-- len(elements_found), equal to sum(elements.values()). -/
def ValidationElements.count (e : ValidationElements) : Nat :=
  e.found.length

def VALIDATION_CRITERION_ID : String := "validation_performed"

/-- ValidationDetector._evaluate_phone_validation (validation.py lines
94-162). `hasOkta` abstracts _has_okta_validation on the description;
`elements` abstracts _check_validation_elements on description plus
work notes; `hasGeneralMention` abstracts
_has_general_validation_mention on description plus work notes;
`evidence` abstracts _extract_validation_evidence. -/
def evaluate_phone_validation (hasOkta : Bool) (elements : ValidationElements)
    (hasGeneralMention : Bool) (evidence : String) : RuleResult :=
  if hasOkta then
    { criterion_id := VALIDATION_CRITERION_ID, passed := true, score := .str "PASS",
      evidence := evidence,
      reasoning := "OKTA Push/MFA validation documented", coaching := none }
  else if elements.count ≥ 2 then
    { criterion_id := VALIDATION_CRITERION_ID, passed := true, score := .str "PASS",
      evidence := evidence,
      reasoning := "Phone validation documented with: " ++
        String.intercalate ", " elements.found,
      coaching := none }
  else if elements.count == 1 then
    { criterion_id := VALIDATION_CRITERION_ID, passed := false, score := .str "-15",
      evidence := evidence,
      reasoning := "Incomplete validation: only " ++
        (elements.found.headD "") ++ " documented",
      coaching := some ("Document additional validation elements: " ++
        String.intercalate ", " elements.missing) }
  else if hasGeneralMention then
    { criterion_id := VALIDATION_CRITERION_ID, passed := false, score := .str "-15",
      evidence := evidence,
      reasoning := "Validation mentioned but details not documented",
      coaching := some ("Document specific validation method: OKTA Push, Employee ID, " ++
        "Full Name, and/or Location verification") }
  else
    { criterion_id := VALIDATION_CRITERION_ID, passed := false, score := .str "FAIL",
      evidence := "No validation documentation found in description or work notes",
      reasoning := "Phone contact requires caller validation but none was documented",
      coaching := some ("Always document caller validation: Use OKTA Push MFA or verify " ++
        "Employee ID, Full Name, and Office Location") }

/-- ValidationDetector._evaluate_chat_validation (validation.py lines
164-221). All abstracted predicates are evaluated on the description
only, as in the source. -/
def evaluate_chat_validation (hasOkta hasGuestChat : Bool)
    (elements : ValidationElements) (hasGeneralMention : Bool)
    (evidence : String) : RuleResult :=
  if hasOkta then
    { criterion_id := VALIDATION_CRITERION_ID, passed := true, score := .str "PASS",
      evidence := evidence,
      reasoning := "OKTA validation confirmed via chat", coaching := none }
  else if hasGuestChat then
    { criterion_id := VALIDATION_CRITERION_ID, passed := true, score := .str "PASS",
      evidence := evidence,
      reasoning := "Guest chat validation documented", coaching := none }
  else if elements.count ≥ 2 then
    { criterion_id := VALIDATION_CRITERION_ID, passed := true, score := .str "PASS",
      evidence := evidence,
      reasoning := "Chat validation with identity verification documented",
      coaching := none }
  else if hasGeneralMention then
    { criterion_id := VALIDATION_CRITERION_ID, passed := false, score := .str "-15",
      evidence := evidence,
      reasoning := "Validation mentioned but not fully documented",
      coaching := some "Specify validation method used for chat session" }
  else
    { criterion_id := VALIDATION_CRITERION_ID, passed := false, score := .str "-15",
      evidence := "No validation documentation found",
      reasoning := "Chat contact should have validation documented",
      coaching := some
        "Document validation method: OKTA verification or guest chat validation" }

/-- ValidationDetector._evaluate_email_validation (validation.py lines
223-252), for a contact type containing "email" (which holds whenever
the dispatcher routes here with contact type "email"): any OKTA or
general validation mention in the description yields PASS, otherwise
N/A. -/
def evaluate_email_validation (hasOkta hasGeneralMention : Bool)
    (evidence : String) : RuleResult :=
  if hasOkta || hasGeneralMention then
    { criterion_id := VALIDATION_CRITERION_ID, passed := true, score := .str "PASS",
      evidence := evidence,
      reasoning := "Email contact with validation documented", coaching := none }
  else
    { criterion_id := VALIDATION_CRITERION_ID, passed := true, score := .str "N/A",
      evidence := "Email contact type",
      reasoning := "Email from verified domain - explicit validation not required",
      coaching := none }

/-! ## Critical-process detector (src/tqrs/rules/critical_process.py)

The regex scans of _detect_critical_processes and of the compliance
helpers are abstracted: the list of detected process type keys is
taken as input (the source derives it from pattern matches and
deduplicates through a Python set, whose iteration order is
unspecified), and each compliance helper receives the booleans its
regular expressions would compute. The branching, scores, and the
returned results are translated verbatim. -/

def CRITICAL_CRITERION_ID : String := "critical_process_followed"

/-- The "description" entries of CRITICAL_PROCESSES
(critical_process.py lines 29-99). -/
def processDescription (processType : String) : String :=
  if processType == "password_reset" then "Password Reset"
  else if processType == "lost_stolen" then "Lost/Stolen Device"
  else if processType == "vip" then "VIP/Executive Support"
  else if processType == "virus_malware" then "Virus/Malware Incident"
  else if processType == "data_privacy" then "Data Privacy/Security Incident"
  else if processType == "account_lockout" then "Account Lockout"
  else ""

/-- The abstracted text signals consumed by the compliance helpers:
one boolean per regex-set check, plus the fields read directly. -/
structure CriticalSignals where
  /-- PASSWORD_COMPLIANCE "trusted_colleague" patterns match. -/
  hasTrustedColleague : Bool
  /-- PASSWORD_COMPLIANCE "password_delivery" patterns match. -/
  hasPasswordDelivery : Bool
  /-- PASSWORD_COMPLIANCE "change_instruction" patterns match. -/
  hasChangeInstruction : Bool
  /-- ticket.priority. -/
  priority : String
  /-- escalation_patterns of _verify_lost_stolen match. -/
  hasLostStolenEscalation : Bool
  /-- security_actions of _verify_security_incident match. -/
  hasSecurityAction : Bool
  /-- ticket.close_notes. -/
  close_notes : String
  /-- _extract_password_evidence output. -/
  passwordEvidence : String
deriving DecidableEq, Repr

/-- CriticalProcessDetector._verify_password_reset
(critical_process.py lines 214-284). -/
def verify_password_reset (sig : CriticalSignals) : RuleResult :=
  if sig.hasTrustedColleague &&
      (sig.hasPasswordDelivery || sig.hasChangeInstruction) then
    { criterion_id := CRITICAL_CRITERION_ID, passed := true, score := .str "PASS",
      evidence := sig.passwordEvidence,
      reasoning := "Password reset process followed: " ++
        "trusted colleague documented, secure delivery method used",
      coaching := none }
  else if sig.hasTrustedColleague then
    { criterion_id := CRITICAL_CRITERION_ID, passed := true, score := .str "PASS",
      evidence := sig.passwordEvidence,
      reasoning := "Password reset with trusted colleague documented",
      coaching := some "Consider also documenting password change instructions" }
  else if sig.hasPasswordDelivery || sig.hasChangeInstruction then
    { criterion_id := CRITICAL_CRITERION_ID, passed := false, score := .str "FAIL",
      evidence := sig.passwordEvidence,
      reasoning := "Password reset without trusted colleague documentation - " ++
        "password may have been sent directly to affected user",
      coaching := some ("CRITICAL: Never send password directly to affected user. " ++
        "Always use a trusted colleague (manager, supervisor) as intermediary") }
  else
    { criterion_id := CRITICAL_CRITERION_ID, passed := false, score := .str "FAIL",
      evidence := "No password reset process documentation found",
      reasoning := "Password reset detected but no process documentation",
      coaching := some ("Document password reset process: " ++
        "1) Use trusted colleague for password delivery, " ++
        "2) Never send to affected user directly, " ++
        "3) Instruct user to change password") }

/-- CriticalProcessDetector._verify_vip_handling (critical_process.py
lines 286-310); the priority requirement of the vip config is
["1", "2"]. -/
def verify_vip_handling (sig : CriticalSignals) : RuleResult :=
  if sig.priority == "1" || sig.priority == "2" then
    { criterion_id := CRITICAL_CRITERION_ID, passed := true, score := .str "PASS",
      evidence := "VIP ticket with priority " ++ sig.priority,
      reasoning := "VIP ticket handled with appropriate priority level",
      coaching := none }
  else
    { criterion_id := CRITICAL_CRITERION_ID, passed := false, score := .str "-35",
      evidence := "VIP ticket with priority " ++ sig.priority,
      reasoning := "VIP ticket should have priority 1/2, " ++
        "but has priority " ++ sig.priority,
      coaching := some "Set appropriate priority for VIP/executive support tickets" }

/-- CriticalProcessDetector._verify_lost_stolen (critical_process.py
lines 312-353). -/
def verify_lost_stolen (sig : CriticalSignals) : RuleResult :=
  if sig.hasLostStolenEscalation then
    { criterion_id := CRITICAL_CRITERION_ID, passed := true, score := .str "PASS",
      evidence := "Lost/stolen device with security response documented",
      reasoning := "Lost/stolen device handled with appropriate escalation",
      coaching := none }
  else
    { criterion_id := CRITICAL_CRITERION_ID, passed := false, score := .str "-35",
      evidence := "Lost/stolen device incident",
      reasoning := "Lost/stolen device requires security escalation " ++
        "but none documented",
      coaching := some ("For lost/stolen devices: " ++
        "1) Disable device/account immediately, " ++
        "2) Escalate to security team, " ++
        "3) Consider remote wipe if applicable") }

/-- CriticalProcessDetector._verify_security_incident
(critical_process.py lines 355-401), for virus_malware and
data_privacy. -/
def verify_security_incident (sig : CriticalSignals)
    (incidentType : String) : RuleResult :=
  let incidentName := processDescription incidentType
  if sig.hasSecurityAction then
    { criterion_id := CRITICAL_CRITERION_ID, passed := true, score := .str "PASS",
      evidence := incidentName ++ " with security response documented",
      reasoning := incidentName ++ " handled with appropriate security measures",
      coaching := none }
  else
    { criterion_id := CRITICAL_CRITERION_ID, passed := false, score := .str "-35",
      evidence := incidentName ++ " incident",
      reasoning := incidentName ++ " requires security response but none documented",
      coaching := some ("For " ++ incidentName ++ ": " ++
        "1) Isolate affected system, " ++
        "2) Escalate to security team, " ++
        "3) Document all actions taken") }

/-- CriticalProcessDetector._verify_documentation (critical_process.py
lines 403-426): pass iff close notes are non-empty and longer than 20
characters. -/
def verify_documentation (sig : CriticalSignals)
    (processType : String) : RuleResult :=
  let d := processDescription processType
  if sig.close_notes ≠ "" && sig.close_notes.length > 20 then
    { criterion_id := CRITICAL_CRITERION_ID, passed := true, score := .str "PASS",
      evidence := d ++ " with resolution documented",
      reasoning := d ++ " handled and documented",
      coaching := none }
  else
    { criterion_id := CRITICAL_CRITERION_ID, passed := false, score := .str "-35",
      evidence := d ++ " with minimal documentation",
      reasoning := d ++ " requires detailed documentation",
      coaching := some "Document all actions taken for critical processes" }

/-- CriticalProcessDetector._verify_process_compliance
(critical_process.py lines 194-212). -/
def verify_process_compliance (sig : CriticalSignals)
    (processType : String) : RuleResult :=
  if processType == "password_reset" then verify_password_reset sig
  else if processType == "vip" then verify_vip_handling sig
  else if processType == "lost_stolen" then verify_lost_stolen sig
  else if processType == "virus_malware" then verify_security_incident sig "virus_malware"
  else if processType == "data_privacy" then verify_security_incident sig "data_privacy"
  else verify_documentation sig processType

/-- The loop of CriticalProcessDetector.evaluate (critical_process.py
lines 142-145): the compliance result of the first detected process
that did not pass, None if all pass. -/
def firstNonPassingResult (sig : CriticalSignals) :
    List String → Option RuleResult
  | [] => none
  | p :: rest =>
    let r := verify_process_compliance sig p
    if r.passed then firstNonPassingResult sig rest else some r

/-- CriticalProcessDetector.evaluate (critical_process.py lines
127-158), with the detected process list abstracted as input. -/
def evaluate_critical (detected : List String) (sig : CriticalSignals) : RuleResult :=
  if detected.isEmpty then
    { criterion_id := CRITICAL_CRITERION_ID, passed := true, score := .str "N/A",
      evidence := "No critical process indicators found",
      reasoning := "Ticket does not involve a critical process",
      coaching := none }
  else
    match firstNonPassingResult sig detected with
    | some r => r
    | none =>
      { criterion_id := CRITICAL_CRITERION_ID, passed := true, score := .str "PASS",
        evidence := "Critical process(es): " ++
          String.intercalate ", " (detected.map processDescription),
        reasoning := "All critical process requirements were followed correctly",
        coaching := none }

/-! ## Short-description validator (src/tqrs/rules/short_description.py)

The segment parser and the issue-count-to-score mapping are embedded
concretely. The three per-segment validity predicates (_is_valid_lob,
which also consults ticket flags, and the regex-based
_is_valid_location and _is_valid_app) are abstracted as boolean-valued
parameters; the surrounding control flow of _check_parts, including
its inner length guards, is translated verbatim. The quoting
punctuation of the Python f-strings inside issue messages is elided;
issue identity and count, which alone determine the score, are
preserved. -/

/-- Python "sub in s" substring membership, for non-empty sub. -/
def pyContains (s sub : String) : Bool :=
  (pySplitOn s sub).length != 1

/-- Python truthiness of the Optional[str] part values: None and the
empty string are falsy. -/
def optStrTruthy : Option String → Bool
  | some s => s ≠ ""
  | none => false

/-- LOB_PATTERNS (short_description.py lines 26-35). -/
def LOB_PATTERNS : List String :=
  ["MARSH", "MERCER", "MMC", "MMC-NCL", "GC", "GUY CARPENTER", "OW", "OLIVER WYMAN"]

/-- The parsed 4-part structure returned by _parse_parts. -/
structure SDParts where
  lob : Option String := none
  location : Option String := none
  app : Option String := none
  brief : Option String := none
deriving DecidableEq, Repr

/-- Positional assignment plus compound-LoB refolding of _parse_parts
(short_description.py lines 154-182), applied to the split segments. -/
def assignParts (segments : List String) : SDParts :=
  let parts : SDParts :=
    { lob := (segments.get? 0).map pyTrim
      location := (segments.get? 1).map pyTrim
      app := (segments.get? 2).map pyTrim
      brief :=
        if segments.length ≥ 4 then
          some (pyTrim (String.intercalate " - " (segments.drop 3)))
        else none }
  if optStrTruthy parts.lob && optStrTruthy parts.location then
    let compound :=
      pyUpper ((parts.lob.getD "") ++ "-" ++ (parts.location.getD ""))
    if LOB_PATTERNS.contains compound then
      let shifted : SDParts :=
        { lob := some compound
          location := parts.app
          app := parts.brief
          brief :=
            if segments.length ≥ 5 then
              some (pyTrim (String.intercalate " - " (segments.drop 4)))
            else if segments.length == 4 then
              (segments.get? 3).map pyTrim
            else none }
      shifted
    else parts
  else parts

/-- ShortDescriptionValidator._parse_parts (short_description.py lines
129-183): split on " - " when present, else on "-", else the whole
string is the brief. -/
def parse_parts (short_desc : String) : SDParts :=
  if pyContains short_desc " - " then assignParts (pySplitOn short_desc " - ")
  else if pyContains short_desc "-" then assignParts (pySplitOn short_desc "-")
  else { brief := some short_desc }

/-- ShortDescriptionValidator._check_parts (short_description.py lines
185-219), with the three validity predicates as parameters. -/
def check_parts (parts : SDParts)
    (isValidLob isValidLocation isValidApp : String → Bool) : List String :=
  let lobIssues :=
    if !optStrTruthy parts.lob then ["Missing Line of Business (LoB)"]
    else if !isValidLob (parts.lob.getD "") then
      ["Unrecognized LoB: " ++ parts.lob.getD ""] else []
  let locationIssues :=
    if !optStrTruthy parts.location then ["Missing location"]
    else if !isValidLocation (parts.location.getD "") &&
        (parts.location.getD "").length < 2 then
      ["Invalid location: " ++ parts.location.getD ""] else []
  let appIssues :=
    if !optStrTruthy parts.app then ["Missing application/system"]
    else if !isValidApp (parts.app.getD "") &&
        ((parts.app.getD "").length < 1 || (parts.app.getD "").length > 50) then
      ["Invalid application: " ++ parts.app.getD ""] else []
  let briefIssues :=
    if !optStrTruthy parts.brief then ["Missing brief description"]
    else if (parts.brief.getD "").length < 3 then
      ["Brief description too short: " ++ parts.brief.getD ""] else []
  lobIssues ++ locationIssues ++ appIssues ++ briefIssues

/-- ShortDescriptionValidator._calculate_score (short_description.py
lines 273-283): the dict lookup {0: 8, 1: 6, 2: 4, 3: 2} with default
0. -/
def calculate_sd_score (issueCount : Nat) : Int :=
  match issueCount with
  | 0 => 8
  | 1 => 6
  | 2 => 4
  | 3 => 2
  | _ => 0

def SD_CRITERION_ID : String := "short_description_format"

/-- ShortDescriptionValidator._get_coaching (short_description.py
lines 285-307). -/
def sd_get_coaching (issues : List String) : String :=
  let base :=
    ["Follow the 4-part format: [LoB] - [Location] - [App] - [Brief Description]"]
  let base :=
    base ++ (if issues.any (fun i => pyContains i "LoB") then
      ["Use standard LoB prefixes: MARSH, MERCER, MMC, MMC-NCL, GC, OW"] else [])
  let base :=
    base ++ (if issues.any (fun i => pyContains (pyLower i) "location") then
      ["Include the office/city location"] else [])
  let base :=
    base ++ (if issues.any (fun i => pyContains (pyLower i) "application") then
      ["Specify the affected application/system (e.g. VDI, LAN, AD)"] else [])
  let base :=
    base ++ (if issues.any (fun i => pyContains (pyLower i) "brief") then
      ["Provide a concise description of the issue"] else [])
  String.intercalate ". " base

/-- ShortDescriptionValidator.validate (short_description.py lines
84-127). -/
def validate_short_description (short_description : String)
    (isValidLob isValidLocation isValidApp : String → Bool) : RuleResult :=
  let short_desc := pyTrim short_description
  if short_desc == "" then
    { criterion_id := SD_CRITERION_ID, passed := false, score := .num 0,
      max_score := some 8,
      evidence := "Empty short description",
      reasoning := "Short description is empty or missing",
      coaching := some ("Always provide a short description following the format: " ++
        "[LoB] - [Location] - [App] - [Brief Description]") }
  else
    let parts := parse_parts short_desc
    let issues := check_parts parts isValidLob isValidLocation isValidApp
    let score := calculate_sd_score issues.length
    if issues.isEmpty then
      { criterion_id := SD_CRITERION_ID, passed := true, score := .num score,
        max_score := some 8,
        evidence := short_desc,
        reasoning := "All 4 parts present and correctly formatted",
        coaching := none }
    else
      { criterion_id := SD_CRITERION_ID, passed := score ≥ 6, score := .num score,
        max_score := some 8,
        evidence := short_desc,
        reasoning := "Issues found: " ++ String.intercalate "; " issues,
        coaching := some (sd_get_coaching issues) }

/-! ## OpenAI client retry logic and token usage (src/tqrs/llm/client.py)

The network transport is abstracted as a function from the attempt
index to either a response or one of the exception kinds the source
catches (RateLimitError, APIConnectionError, APIError with its status
code, TimeoutError). The retry loop of OpenAIClient.complete, the
delay schedule of _get_retry_delay, and the raised typed errors are
translated verbatim; Python time.sleep is recorded as the list of
delays slept. A raised typed error is modelled with its message and
with `cause`, the exception attached via Python `raise ... from e`
(`none` when no `from` clause is present, as at the post-loop
raises). -/

/-- The exception kinds of one transport attempt that complete
catches. -/
inductive TransportError where
  | rateLimit
  | connection
  | apiError (status : Option Nat)
  | timeout
deriving DecidableEq, Repr

/-- Stand-in for Python str(e) on a transport exception. -/
def describeTransport : TransportError → String
  | .rateLimit => "RateLimitError"
  | .connection => "APIConnectionError"
  | .apiError (some c) => "APIError " ++ toString c
  | .apiError none => "APIError"
  | .timeout => "TimeoutError"

def describeLastTransport : Option TransportError → String
  | some e => describeTransport e
  | none => "None"

/-- Whether an iteration of the loop in complete retries the error
rather than raising: RateLimitError, APIConnectionError and
TimeoutError always retry; APIError retries iff
`e.status_code and e.status_code >= 500` (a None status is falsy). -/
def isRetryableTransport : TransportError → Bool
  | .rateLimit => true
  | .connection => true
  | .timeout => true
  | .apiError (some c) => 500 ≤ c
  | .apiError none => false

/-- The typed errors complete raises (client.py lines 20-41 define the
classes; LLMValidationError is raised inside _make_request, which is
abstracted into the transport here). -/
inductive LLMTypedError where
  | rateLimitExceeded (msg : String) (cause : Option TransportError)
  | apiFailure (msg : String) (cause : Option TransportError)
  | timedOut (msg : String) (cause : Option TransportError)
deriving DecidableEq, Repr

/-- The cause attached to a typed error. -/
def LLMTypedError.causeOf : LLMTypedError → Option TransportError
  | .rateLimitExceeded _ c => c
  | .apiFailure _ c => c
  | .timedOut _ c => c

/-- OpenAIClient._get_retry_delay (client.py lines 251-255): the fixed
delay for the attempt index while the sequence lasts, then double its
last element. Delays are rationals standing for the Python floats; the
source indexes delays[-1], presupposing a non-empty sequence (the
ClientConfig default is (1.0, 2.0, 4.0)). -/
def get_retry_delay (delays : List ℚ) (attempt : Nat) : ℚ :=
  match delays.get? attempt with
  | some d => d
  | none => delays.getLastD 0 * 2

/-- The post-loop raise of complete (client.py lines 207-213): the
typed error selected by isinstance checks on the last caught error,
raised without a `from` clause. -/
def exhaustedError (maxRetries : Nat) : Option TransportError → LLMTypedError
  | some .rateLimit =>
    .rateLimitExceeded (s!"Rate limit exceeded after {maxRetries} retries") none
  | some .timeout =>
    .timedOut (s!"Request timed out after {maxRetries} retries") none
  | lastError =>
    .apiFailure
      (s!"API error after {maxRetries} retries: " ++ describeLastTransport lastError)
      none

/-- The observable outcome of one complete call: how many transport
attempts were made, which delays were slept in order, and the
response or raised typed error. -/
structure CompleteOutcome (α : Type) where
  attempts : Nat
  sleeps : List ℚ
  result : Except LLMTypedError α
deriving Repr

/-- The retry loop of OpenAIClient.complete (client.py lines 178-213),
unrolled on the remaining attempt budget: index i is the current
attempt, fuel the attempts left, lastError the error of the previous
iteration. A success returns; a retryable error sleeps and continues;
a non-retryable APIError raises LLMAPIError from the caught error;
an exhausted budget raises the typed exhaustion error. -/
def completeFrom {α : Type} (maxRetries : Nat) (delays : List ℚ)
    (transport : Nat → Except TransportError α) :
    Nat → Nat → Option TransportError → CompleteOutcome α
  | _, 0, lastError => ⟨0, [], .error (exhaustedError maxRetries lastError)⟩
  | i, fuel + 1, _ =>
    match transport i with
    | .ok r => ⟨1, [], .ok r⟩
    | .error e =>
      if isRetryableTransport e then
        let rest := completeFrom maxRetries delays transport (i + 1) fuel (some e)
        ⟨rest.attempts + 1, get_retry_delay delays i :: rest.sleeps, rest.result⟩
      else
        ⟨1, [], .error (.apiFailure ("API error: " ++ describeTransport e) (some e))⟩

/-- OpenAIClient.complete (client.py lines 158-213) over the
abstracted transport, with the configured max_retries and
retry_delays. -/
def complete {α : Type} (maxRetries : Nat) (delays : List ℚ)
    (transport : Nat → Except TransportError α) : CompleteOutcome α :=
  completeFrom maxRetries delays transport 0 maxRetries none

/-- TokenUsage (client.py lines 44-58); the dataclass defaults are all
zero. -/
structure TokenUsage where
  prompt_tokens : Nat := 0
  completion_tokens : Nat := 0
  total_tokens : Nat := 0
  request_count : Nat := 0
deriving DecidableEq, Repr

/-- The per-response usage dict passed to TokenUsage.add. -/
structure UsageDelta where
  prompt_tokens : Nat := 0
  completion_tokens : Nat := 0
  total_tokens : Nat := 0
deriving DecidableEq, Repr

/-- TokenUsage.add (client.py lines 53-58). -/
def TokenUsage.addUsage (u : TokenUsage) (d : UsageDelta) : TokenUsage :=
  { prompt_tokens := u.prompt_tokens + d.prompt_tokens
    completion_tokens := u.completion_tokens + d.completion_tokens
    total_tokens := u.total_tokens + d.total_tokens
    request_count := u.request_count + 1 }

/-- The client state the usage claims concern: OpenAIClient holds its
cumulative token_usage (client.py line 156). -/
structure ClientState where
  token_usage : TokenUsage := {}
deriving DecidableEq, Repr

/-- OpenAIClient.reset_usage (client.py lines 257-261): returns the
accumulated usage and replaces it with a fresh zero TokenUsage. -/
def reset_usage (c : ClientState) : TokenUsage × ClientState :=
  (c.token_usage, { token_usage := {} })

/-! ## Batch orchestrator (src/tqrs/llm/batch.py)

The per-ticket evaluation (LLMEvaluator.evaluate_ticket) is abstracted
as a state-passing function that either returns the rule results or
raises, modelled as Except; both LLMError and Exception handlers of
the source record the failure, so any raised error is an `Except.error`
carrying str(e). Wall-clock fields and the progress callback (which
only observes the counters) are not modelled. evaluate_batch_async
bounds concurrency with a semaphore and gathers one result per ticket
in input order, updating the shared counters once per completion; its
counter and result bookkeeping is the same fold. -/

/-- The slice of ServiceNowTicket (src/tqrs/models/ticket.py) the
batch orchestrator reads: the ticket number. -/
structure TicketRef where
  number : String
deriving DecidableEq, Repr

/-- TicketEvaluationResult (batch.py lines 49-57), without the
wall-clock field. -/
structure TicketEvaluationResult where
  ticket_number : String
  success : Bool
  rule_results : List RuleResult := []
  error : Option String := none
deriving DecidableEq, Repr

/-- BatchResult (batch.py lines 60-69), without the wall-clock
field. -/
structure BatchResult where
  results : List TicketEvaluationResult
  total_tickets : Nat
  successful : Nat
  failed : Nat
  token_usage : TokenUsage
deriving DecidableEq, Repr

/-- The loop state of evaluate_batch: the client (whose usage the
evaluator mutates), the accumulated results, and the
progress.completed / progress.failed counters. -/
structure BatchLoopState where
  client : ClientState
  results : List TicketEvaluationResult
  completed : Nat
  failed : Nat
deriving Repr

/-- One iteration of the loop in BatchLLMEvaluator.evaluate_batch
(batch.py lines 111-148): evaluate the ticket, append a success entry
and bump completed, or append a failure entry carrying str(e) and bump
failed. -/
def batchStep (evalTicket : TicketRef → ClientState →
    Except String (List RuleResult) × ClientState)
    (st : BatchLoopState) (t : TicketRef) : BatchLoopState :=
  let (res, c2) := evalTicket t st.client
  match res with
  | .ok rr =>
    { client := c2
      results := st.results ++
        [{ ticket_number := t.number, success := true, rule_results := rr }]
      completed := st.completed + 1
      failed := st.failed }
  | .error e =>
    { client := c2
      results := st.results ++
        [{ ticket_number := t.number, success := false, error := some e }]
      completed := st.completed
      failed := st.failed + 1 }

/-- BatchLLMEvaluator.evaluate_batch (batch.py lines 91-161): reset
the client usage first, loop over the tickets, and assemble the
BatchResult from the counters and the client usage. Returns the
result together with the final client state. -/
def evaluate_batch (client : ClientState) (tickets : List TicketRef)
    (evalTicket : TicketRef → ClientState →
      Except String (List RuleResult) × ClientState) :
    BatchResult × ClientState :=
  let client := (reset_usage client).2
  let st := tickets.foldl (batchStep evalTicket)
    { client := client, results := [], completed := 0, failed := 0 }
  ({ results := st.results
     total_tickets := tickets.length
     successful := st.completed
     failed := st.failed
     token_usage := st.client.token_usage }, st.client)

/-- BatchLLMEvaluator.evaluate_batch_async (batch.py lines 163-246):
the same per-ticket handling inside evaluate_one, with
asyncio.gather collecting one TicketEvaluationResult per ticket in
input order and the shared counters updated once per completion; the
bookkeeping is the same fold. -/
def evaluate_batch_async (client : ClientState) (tickets : List TicketRef)
    (evalTicket : TicketRef → ClientState →
      Except String (List RuleResult) × ClientState) :
    BatchResult × ClientState :=
  let client := (reset_usage client).2
  let st := tickets.foldl (batchStep evalTicket)
    { client := client, results := [], completed := 0, failed := 0 }
  ({ results := st.results
     total_tickets := tickets.length
     successful := st.completed
     failed := st.failed
     token_usage := st.client.token_usage }, st.client)

/-! ## Theorems -/

/-- Claim C1 counterexample: a Fail outcome on validation whose
reasoning text is "Colleague identity was not verified on the call"
produces a terminal result whose auto-fail reason is the calculator's
canned validation message, not that outcome's reasoning, so the reason
is not taken from the failing criterion's result. -/
theorem auto_fail_reason_counterexample :
    (calculate_score
      [{ criterion_id := "validation_performed", passed := false,
         score := .str "FAIL", evidence := "",
         reasoning := "Colleague identity was not verified on the call" }]
      [] .incidentLogging).auto_fail_reason ≠
        some "Colleague identity was not verified on the call" ∧
    (calculate_score
      [{ criterion_id := "validation_performed", passed := false,
         score := .str "FAIL", evidence := "",
         reasoning := "Colleague identity was not verified on the call" }]
      [] .incidentLogging).auto_fail_reason =
        some "Validation not performed - colleague identity not verified" := by
  decide

/-- Claim C1 (amended): if any combined result is an auto-fail (a
string score FAIL, case-insensitively), the returned evaluation is
terminal — final score 0, band Purple, passed false — regardless of
all other results, and the auto-fail reason is the canned message
selected by the criterion id of the first failing result, not that
result's reasoning text. -/
theorem auto_fail_terminal_amended
    (rule_results llm_results : List RuleResult) (template : TemplateType)
    (h : ∃ r ∈ rule_results ++ llm_results, r.auto_fail_flag) :
    ∃ fr, (rule_results ++ llm_results).find? (fun r => r.auto_fail_flag) = some fr ∧
      calculate_score rule_results llm_results template =
        { base_score := 0, validation_deduction := 0,
          critical_process_deduction := 0, final_score := 0,
          max_score := templateMaxScore template, auto_fail := true,
          auto_fail_reason := some (autoFailMessage fr),
          band := .purple, passed := false } := by
  have hsome : ((rule_results ++ llm_results).find?
      (fun r => r.auto_fail_flag)).isSome := List.find?_isSome.mpr h
  obtain ⟨fr, hfr⟩ := Option.isSome_iff_exists.mp hsome
  exact ⟨fr, hfr, by simp [calculate_score, check_auto_fail, hfr]⟩

/-- The concrete failing input of the C1 witness. -/
def c1WitnessResult : RuleResult :=
  { criterion_id := "critical_process_followed", passed := false,
    score := .str "FAIL", max_score := none, evidence := "",
    reasoning := "password sent to user", coaching := none }

/-- Witness for the amended C1 theorem at a concrete failing input. -/
theorem auto_fail_terminal_witness :
    (∃ r ∈ [c1WitnessResult] ++ [], r.auto_fail_flag) ∧
    ∃ fr, ([c1WitnessResult] ++ []).find? (fun r => r.auto_fail_flag) = some fr ∧
      calculate_score [c1WitnessResult] [] .incidentHandling =
        { base_score := 0, validation_deduction := 0,
          critical_process_deduction := 0, final_score := 0,
          max_score := templateMaxScore .incidentHandling, auto_fail := true,
          auto_fail_reason := some (autoFailMessage fr),
          band := .purple, passed := false } :=
  ⟨⟨c1WitnessResult, by decide, by decide⟩,
   auto_fail_terminal_amended [c1WitnessResult] [] .incidentHandling
     ⟨c1WitnessResult, by decide, by decide⟩⟩

/-- Claim C2: when no auto-fail occurs, the final score is
max 0 (base score + validation deduction + critical-process
deduction), hence never negative. -/
theorem final_score_formula
    (rule_results llm_results : List RuleResult) (template : TemplateType)
    (h : ∀ r ∈ rule_results ++ llm_results, r.auto_fail_flag = false) :
    (calculate_score rule_results llm_results template).final_score =
      max 0 (calculate_base_score (rule_results ++ llm_results) template +
        (get_deductions (rule_results ++ llm_results)).1 +
        (get_deductions (rule_results ++ llm_results)).2) ∧
    0 ≤ (calculate_score rule_results llm_results template).final_score := by
  have hfind : (rule_results ++ llm_results).find? (fun r => r.auto_fail_flag) = none :=
    List.find?_eq_none.mpr (fun x hx => by simp [h x hx])
  refine ⟨?_, ?_⟩
  · simp [calculate_score, check_auto_fail, hfind]
  · simp only [calculate_score, check_auto_fail, hfind]
    exact le_max_left 0 _

/-- The concrete no-auto-fail inputs of the C2 witness. -/
def c2WitnessResults : List RuleResult :=
  [{ criterion_id := "correct_category", passed := true,
     score := .num 10, max_score := some 10, evidence := "",
     reasoning := "", coaching := none },
   { criterion_id := "validation_performed", passed := false,
     score := .str "-15", max_score := none, evidence := "",
     reasoning := "", coaching := none }]

/-- Witness for C2 at a concrete no-auto-fail input. -/
theorem final_score_formula_witness :
    (∀ r ∈ c2WitnessResults ++ [], r.auto_fail_flag = false) ∧
    ((calculate_score c2WitnessResults [] .incidentLogging).final_score =
      max 0 (calculate_base_score (c2WitnessResults ++ []) .incidentLogging +
        (get_deductions (c2WitnessResults ++ [])).1 +
        (get_deductions (c2WitnessResults ++ [])).2) ∧
      0 ≤ (calculate_score c2WitnessResults [] .incidentLogging).final_score) :=
  ⟨by decide,
   final_score_formula c2WitnessResults [] .incidentLogging (by decide)⟩

/-- Spec-side definition for the refinement claim C3, written from
the spec words: the deduction total is the sum of all Deduction
magnitudes (negative scores, via RuleResult.is_deduction and
numeric_score) across results belonging to deduction-flagged criteria
of the rubric. -/
def specDeductionTotal (template : TemplateType) (results : List RuleResult) : Int :=
  results.foldl (fun acc r =>
    match get_criterion_by_id template r.criterion_id with
    | some c =>
      if c.is_deduction && r.deduction_flag then acc + r.numeric_score else acc
    | none => acc) 0

/-- Claim C3 counterexample: a Deduction of magnitude 20 on the
deduction-flagged criterion validation_performed contributes -20 under
the spec-side sum, but the aggregator applies no deduction at all: it
recognizes validation_performed only at the exact magnitude -15. -/
theorem deduction_total_counterexample :
    ((calculate_score
      [{ criterion_id := "validation_performed", passed := false,
         score := .str "-20", max_score := none, evidence := "",
         reasoning := "", coaching := none }] [] .incidentLogging).validation_deduction +
     (calculate_score
      [{ criterion_id := "validation_performed", passed := false,
         score := .str "-20", max_score := none, evidence := "",
         reasoning := "", coaching := none }] [] .incidentLogging).critical_process_deduction ≠
      specDeductionTotal .incidentLogging
        [{ criterion_id := "validation_performed", passed := false,
           score := .str "-20", max_score := none, evidence := "",
           reasoning := "", coaching := none }]) ∧
    specDeductionTotal .incidentLogging
      [{ criterion_id := "validation_performed", passed := false,
         score := .str "-20", max_score := none, evidence := "",
         reasoning := "", coaching := none }] = -20 := by
  decide

/-- Claim C3 (amended): the aggregator recognizes exactly the two
hard-coded criteria: the validation deduction is -15 precisely when
some result for validation_performed has score -15 (int or string),
and the critical-process deduction is -35 precisely when some result
for critical_process_followed has score -35; repeated deductions do
not add up and any other criterion or magnitude contributes nothing,
so a result list with no such result yields zero. -/
theorem deductions_characterization (results : List RuleResult) :
    get_deductions results =
      ((if results.any (fun r =>
          r.criterion_id == "validation_performed" && scoreIsNeg15 r.score)
        then -15 else 0),
       (if results.any (fun r =>
          r.criterion_id == "critical_process_followed" && scoreIsNeg35 r.score)
        then -35 else 0)) := by
  suffices h : ∀ (l : List RuleResult) (a b : Int),
      l.foldl deductionStep (a, b) =
        ((if l.any (fun r =>
            r.criterion_id == "validation_performed" && scoreIsNeg15 r.score)
          then -15 else a),
         (if l.any (fun r =>
            r.criterion_id == "critical_process_followed" && scoreIsNeg35 r.score)
          then -35 else b)) from h results 0 0
  intro l
  induction l with
  | nil => intro a b; simp
  | cons r t ih =>
    intro a b
    simp only [List.foldl_cons, List.any_cons, ih]
    by_cases hv : r.criterion_id == "validation_performed"
    · have hv2 : (r.criterion_id == "critical_process_followed") = false := by
        rw [show r.criterion_id = "validation_performed" from by simpa using hv]
        decide
      by_cases hs : scoreIsNeg15 r.score
      · simp [deductionStep, hv, hv2, hs]
      · simp [deductionStep, hv, hv2, hs]
    · by_cases hc : r.criterion_id == "critical_process_followed"
      · by_cases hs : scoreIsNeg35 r.score
        · simp [deductionStep, hv, hc, hs]
        · simp [deductionStep, hv, hc, hs]
      · simp [deductionStep, hv, hc]

/-- Claim C4 counterexample: four results for accurate_description,
each Numeric 20 and within that criterion's max of 20, sum to a base
score of 80 on the Incident Logging template, exceeding the template
max of 70 — _calculate_base_score applies no clamp. -/
theorem base_score_cap_counterexample :
    (calculate_score
      [{ criterion_id := "accurate_description", passed := true,
         score := .num 20, max_score := some 20, evidence := "",
         reasoning := "", coaching := none },
       { criterion_id := "accurate_description", passed := true,
         score := .num 20, max_score := some 20, evidence := "",
         reasoning := "", coaching := none },
       { criterion_id := "accurate_description", passed := true,
         score := .num 20, max_score := some 20, evidence := "",
         reasoning := "", coaching := none },
       { criterion_id := "accurate_description", passed := true,
         score := .num 20, max_score := some 20, evidence := "",
         reasoning := "", coaching := none }] [] .incidentLogging).base_score = 80 ∧
    ¬ (calculate_score
      [{ criterion_id := "accurate_description", passed := true,
         score := .num 20, max_score := some 20, evidence := "",
         reasoning := "", coaching := none },
       { criterion_id := "accurate_description", passed := true,
         score := .num 20, max_score := some 20, evidence := "",
         reasoning := "", coaching := none },
       { criterion_id := "accurate_description", passed := true,
         score := .num 20, max_score := some 20, evidence := "",
         reasoning := "", coaching := none },
       { criterion_id := "accurate_description", passed := true,
         score := .num 20, max_score := some 20, evidence := "",
         reasoning := "", coaching := none }] [] .incidentLogging).base_score ≤
      templateMaxScore .incidentLogging := by
  decide

/-- The cap a criterion id imposes on a base-score contribution: the
max points of its non-deduction criterion, 0 for deduction criteria
and unknown ids. -/
def criterionCap (template : TemplateType) (criterionId : String) : Int :=
  match get_criterion_by_id template criterionId with
  | some c => if c.is_deduction then 0 else c.max_points
  | none => 0

theorem foldl_add_eq_sum {α : Type} (g : α → Int) :
    ∀ (l : List α) (a : Int),
      l.foldl (fun acc r => acc + g r) a = a + (l.map g).sum := by
  intro l
  induction l with
  | nil => simp
  | cons x t ih => intro a; simp [ih]; ring

theorem template_max_points_nonneg (template : TemplateType) :
    ∀ c ∈ TEMPLATE_CRITERIA template, 0 ≤ c.max_points := by
  cases template <;> decide

theorem criterionCap_nonneg (template : TemplateType) (criterionId : String) :
    0 ≤ criterionCap template criterionId := by
  unfold criterionCap
  cases hf : get_criterion_by_id template criterionId with
  | none => simp
  | some c =>
    have hc : c ∈ TEMPLATE_CRITERIA template := List.mem_of_find?_eq_some hf
    by_cases hd : c.is_deduction <;>
      simp [hd, template_max_points_nonneg template c hc]

theorem criterionCap_total_le (template : TemplateType) :
    (((TEMPLATE_CRITERIA template).map
      (fun c => c.criterion_id)).toFinset.sum (criterionCap template)) ≤
      templateMaxScore template := by
  cases template <;> decide

/-- Claim C4 (amended): _calculate_base_score is the plain uncapped
sum of the non-negative numeric contributions over non-deduction
criteria — no defensive clamp exists, and duplicated criterion results
push it past the template max (see the counterexample) — but whenever
each result belongs to a criterion of the rubric, contributes at most
that criterion's cap, and no criterion id repeats, the base score does
not exceed the template max score. -/
theorem base_score_bounded_of_well_formed
    (results : List RuleResult) (template : TemplateType)
    (hnd : (results.map (fun r => r.criterion_id)).Nodup)
    (hwf : ∀ r ∈ results, (get_criterion_by_id template r.criterion_id).isSome ∧
      baseScoreContribution template r ≤ criterionCap template r.criterion_id) :
    calculate_base_score results template ≤ templateMaxScore template := by
  have h1 : calculate_base_score results template =
      (results.map (baseScoreContribution template)).sum := by
    unfold calculate_base_score
    rw [foldl_add_eq_sum]
    ring
  have h2 : (results.map (baseScoreContribution template)).sum ≤
      (results.map (fun r => criterionCap template r.criterion_id)).sum :=
    List.sum_le_sum (fun r hr => (hwf r hr).2)
  have h3 : (results.map (fun r => criterionCap template r.criterion_id)).sum =
      ((results.map (fun r => r.criterion_id)).map (criterionCap template)).sum := by
    rw [List.map_map]
    rfl
  have h4 : ((results.map (fun r => r.criterion_id)).map
      (criterionCap template)).sum =
      (results.map (fun r => r.criterion_id)).toFinset.sum
        (criterionCap template) :=
    (List.sum_toFinset _ hnd).symm
  have h5 : (results.map (fun r => r.criterion_id)).toFinset ⊆
      ((TEMPLATE_CRITERIA template).map (fun c => c.criterion_id)).toFinset := by
    intro x hx
    rw [List.mem_toFinset] at hx ⊢
    obtain ⟨r, hr, hrx⟩ := List.mem_map.mp hx
    obtain ⟨c, hcsome⟩ := Option.isSome_iff_exists.mp (hwf r hr).1
    rw [get_criterion_by_id] at hcsome
    have hcid := List.find?_some hcsome
    have hcmem : c ∈ TEMPLATE_CRITERIA template :=
      List.mem_of_find?_eq_some hcsome
    refine List.mem_map.mpr ⟨c, hcmem, ?_⟩
    have hceq : c.criterion_id = r.criterion_id := by simpa using hcid
    rw [hceq, hrx]
  have h6 : (results.map (fun r => r.criterion_id)).toFinset.sum
      (criterionCap template) ≤
      ((TEMPLATE_CRITERIA template).map
        (fun c => c.criterion_id)).toFinset.sum (criterionCap template) :=
    Finset.sum_le_sum_of_subset_of_nonneg h5
      (fun i _ _ => criterionCap_nonneg template i)
  calc calculate_base_score results template
      = (results.map (baseScoreContribution template)).sum := h1
    _ ≤ (results.map (fun r => criterionCap template r.criterion_id)).sum := h2
    _ = (results.map (fun r => r.criterion_id)).toFinset.sum
        (criterionCap template) := by rw [h3, h4]
    _ ≤ ((TEMPLATE_CRITERIA template).map
        (fun c => c.criterion_id)).toFinset.sum (criterionCap template) := h6
    _ ≤ templateMaxScore template := criterionCap_total_le template

/-- The concrete well-formed inputs of the C4 witness. -/
def c4WitnessResults : List RuleResult :=
  [{ criterion_id := "correct_category", passed := true,
     score := .num 10, max_score := some 10, evidence := "",
     reasoning := "", coaching := none },
   { criterion_id := "short_description_format", passed := true,
     score := .num 8, max_score := some 8, evidence := "",
     reasoning := "", coaching := none }]

/-- Witness for the amended C4 theorem at a concrete well-formed
input. -/
theorem base_score_bounded_witness :
    (c4WitnessResults.map (fun r => r.criterion_id)).Nodup ∧
    (∀ r ∈ c4WitnessResults,
      (get_criterion_by_id .incidentLogging r.criterion_id).isSome ∧
      baseScoreContribution .incidentLogging r ≤
        criterionCap .incidentLogging r.criterion_id) ∧
    calculate_base_score c4WitnessResults .incidentLogging ≤
      templateMaxScore .incidentLogging :=
  ⟨by decide, by decide,
   base_score_bounded_of_well_formed c4WitnessResults .incidentLogging
     (by decide) (by decide)⟩

/-- Claim C5 counterexample: a chat ticket evidencing exactly one
identity element (and no strong marker) scores the -15 deduction, not
Pass; and an email ticket with no strong-authentication marker but a
generic validation mention scores Pass, not N/A. -/
theorem validation_matrix_counterexample :
    (evaluate_chat_validation false false
      { name := true, employee_id := false, location := false } false "").score ≠
      .str "PASS" ∧
    (evaluate_chat_validation false false
      { name := true, employee_id := false, location := false } false "").score =
      .str "-15" ∧
    (evaluate_email_validation false true "").score ≠ .str "N/A" ∧
    (evaluate_email_validation false true "").score = .str "PASS" := by
  decide

/-- Claim C5 (amended): phone with two identity elements and no
strong marker passes; phone with zero elements and no validation
mention fails; chat with exactly one identity element (and neither a
strong nor a guest-chat marker) receives the -15 deduction rather
than Pass; email receives N/A only when neither a strong marker nor
any generic validation mention is present (a generic mention alone
yields Pass). -/
theorem validation_matrix_amended :
    (∀ (e : ValidationElements) (m : Bool) (ev : String), e.count = 2 →
      (evaluate_phone_validation false e m ev).score = .str "PASS") ∧
    (∀ ev : String,
      (evaluate_phone_validation false
        { name := false, employee_id := false, location := false }
        false ev).score = .str "FAIL") ∧
    (∀ (e : ValidationElements) (m : Bool) (ev : String), e.count = 1 →
      (evaluate_chat_validation false false e m ev).score = .str "-15") ∧
    (∀ ev : String,
      (evaluate_email_validation false false ev).score = .str "N/A") := by
  refine ⟨?_, ?_, ?_, ?_⟩
  · intro e m ev h
    simp [evaluate_phone_validation, h]
  · intro ev
    simp [evaluate_phone_validation, ValidationElements.count,
      ValidationElements.found]
  · intro e m ev h
    have h2 : ¬ e.count ≥ 2 := by omega
    cases m <;> simp [evaluate_chat_validation, h, h2]
  · intro ev
    simp [evaluate_email_validation]

/-- Witness for the amended C5 theorem at concrete element sets. -/
theorem validation_matrix_witness :
    ((ValidationElements.mk true false true).count = 2 ∧
      (evaluate_phone_validation false
        (ValidationElements.mk true false true) false "").score = .str "PASS") ∧
    (evaluate_phone_validation false
      (ValidationElements.mk false false false) false "").score = .str "FAIL" ∧
    ((ValidationElements.mk false true false).count = 1 ∧
      (evaluate_chat_validation false false
        (ValidationElements.mk false true false) false "").score = .str "-15") ∧
    (evaluate_email_validation false false "").score = .str "N/A" :=
  ⟨⟨by decide,
    validation_matrix_amended.1 (ValidationElements.mk true false true)
      false "" (by decide)⟩,
   validation_matrix_amended.2.1 "",
   ⟨by decide,
    validation_matrix_amended.2.2.1 (ValidationElements.mk false true false)
      false "" (by decide)⟩,
   validation_matrix_amended.2.2.2 ""⟩

/-- The concrete signals of the C6 counterexample: a VIP ticket at
priority 3 (non-compliant, a -35 deduction, never Fail) that also
matches lost/stolen with escalation documented (compliant). -/
def c6Signals : CriticalSignals :=
  { hasTrustedColleague := false, hasPasswordDelivery := false,
    hasChangeInstruction := false, priority := "3",
    hasLostStolenEscalation := true, hasSecurityAction := false,
    close_notes := "", passwordEvidence := "" }

/-- Claim C6 counterexample: with processes vip and lost_stolen
detected and no compliance check yielding Fail, the detector still
short-circuits at the non-compliant VIP check: the returned result is
its -35 deduction, the compliant lost/stolen process is never
reflected, and the evidence does not list all detected process
names. -/
theorem critical_process_counterexample :
    (∀ p ∈ ["vip", "lost_stolen"],
      (verify_process_compliance c6Signals p).score ≠ .str "FAIL") ∧
    (evaluate_critical ["vip", "lost_stolen"] c6Signals).score = .str "-35" ∧
    (evaluate_critical ["vip", "lost_stolen"] c6Signals).evidence ≠
      "Critical process(es): " ++ String.intercalate ", "
        (["vip", "lost_stolen"].map processDescription) := by
  decide

theorem firstNonPassing_eq_none_of_all_passed (sig : CriticalSignals) :
    ∀ detected : List String,
      (∀ p ∈ detected, (verify_process_compliance sig p).passed = true) →
      firstNonPassingResult sig detected = none := by
  intro detected
  induction detected with
  | nil => intro _; rfl
  | cons p rest ih =>
    intro h
    have hp := h p (List.mem_cons_self p rest)
    simp [firstNonPassingResult, hp]
    exact ih (fun q hq => h q (List.mem_cons_of_mem p hq))

theorem firstNonPassing_eq_find (sig : CriticalSignals) :
    ∀ detected : List String,
      firstNonPassingResult sig detected =
        (detected.find? (fun q => !(verify_process_compliance sig q).passed)).map
          (verify_process_compliance sig) := by
  intro detected
  induction detected with
  | nil => rfl
  | cons p rest ih =>
    by_cases h : (verify_process_compliance sig p).passed
    · rw [List.find?_cons_of_neg _ (by simp [h])]
      simpa [firstNonPassingResult, h] using ih
    · rw [List.find?_cons_of_pos _ (by simp [h])]
      simp [firstNonPassingResult, h]

/-- Claim C6 (amended): the detector skips the passing detected
processes and returns the compliance result of the first non-passing
one — whether that result is a Fail or a -35 deduction — leaving the
processes after it unconsulted; only when every detected process
passes does it return the single Pass result listing all detected
process names as evidence. -/
theorem critical_process_amended :
    (∀ (sig : CriticalSignals) (detected : List String) (p : String),
      detected.find? (fun q => !(verify_process_compliance sig q).passed) =
        some p →
      evaluate_critical detected sig = verify_process_compliance sig p) ∧
    (∀ (sig : CriticalSignals) (detected : List String), detected ≠ [] →
      (∀ q ∈ detected, (verify_process_compliance sig q).passed = true) →
      evaluate_critical detected sig =
        { criterion_id := CRITICAL_CRITERION_ID, passed := true,
          score := .str "PASS",
          evidence := "Critical process(es): " ++
            String.intercalate ", " (detected.map processDescription),
          reasoning := "All critical process requirements were followed correctly",
          coaching := none }) := by
  constructor
  · intro sig detected p hfind
    have hne : detected.isEmpty = false := by
      cases detected
      · simp at hfind
      · rfl
    simp [evaluate_critical, hne, firstNonPassing_eq_find, hfind]
  · intro sig detected hne hall
    have hnone := firstNonPassing_eq_none_of_all_passed sig detected hall
    cases detected with
    | nil => exact absurd rfl hne
    | cons p rest =>
      simp [evaluate_critical, hnone]

/-- The C6 witness signals: VIP at priority 1 passes while
lost/stolen without escalation violates. -/
def c6WitnessSignals : CriticalSignals :=
  { hasTrustedColleague := false, hasPasswordDelivery := false,
    hasChangeInstruction := false, priority := "1",
    hasLostStolenEscalation := false, hasSecurityAction := false,
    close_notes := "", passwordEvidence := "" }

/-- The C6 witness signals for the all-pass case: a compliant
password reset with substantial close notes. -/
def c6AllPassSignals : CriticalSignals :=
  { hasTrustedColleague := true, hasPasswordDelivery := true,
    hasChangeInstruction := true, priority := "1",
    hasLostStolenEscalation := false, hasSecurityAction := false,
    close_notes := "connected with manager and rotated credentials",
    passwordEvidence := "" }

/-- Witness for the amended C6 theorem: with a passing VIP first and
a violating lost/stolen second, the detector skips the passing
process and returns the -35 lost/stolen result; a compliant password
reset plus account lockout pair passes with both names listed. -/
theorem critical_process_witness :
    ((["vip", "lost_stolen"] : List String).find?
        (fun q => !(verify_process_compliance c6WitnessSignals q).passed) =
        some "lost_stolen" ∧
      evaluate_critical ["vip", "lost_stolen"] c6WitnessSignals =
        verify_process_compliance c6WitnessSignals "lost_stolen" ∧
      (verify_process_compliance c6WitnessSignals "lost_stolen").score =
        .str "-35") ∧
    ((["password_reset", "account_lockout"] : List String) ≠ [] ∧
      (∀ q ∈ (["password_reset", "account_lockout"] : List String),
        (verify_process_compliance c6AllPassSignals q).passed = true) ∧
      evaluate_critical ["password_reset", "account_lockout"] c6AllPassSignals =
        { criterion_id := CRITICAL_CRITERION_ID, passed := true,
          score := .str "PASS",
          evidence := "Critical process(es): " ++
            String.intercalate ", "
              ((["password_reset", "account_lockout"] : List String).map
                processDescription),
          reasoning := "All critical process requirements were followed correctly",
          coaching := none }) :=
  ⟨⟨by decide,
    critical_process_amended.1 c6WitnessSignals ["vip", "lost_stolen"]
      "lost_stolen" (by decide),
    by decide⟩,
   ⟨by decide, by decide,
    critical_process_amended.2 c6AllPassSignals
      ["password_reset", "account_lockout"] (by decide) (by decide)⟩⟩

/-- Claim C7: the short-description score is 8 minus 2 per issue,
floored at 0 (so 8/6/4/2/0 points for 0/1/2/3/at-least-4 issues); a
non-empty short description is scored from its issue count, and an
empty or whitespace-only one scores 0 with coaching text attached. -/
theorem short_description_score_table :
    (∀ n : Nat, calculate_sd_score n = max 0 (8 - 2 * (n : Int))) ∧
    (∀ (s : String) (vl vc va : String → Bool), pyTrim s ≠ "" →
      (validate_short_description s vl vc va).score =
        .num (calculate_sd_score
          (check_parts (parse_parts (pyTrim s)) vl vc va).length)) ∧
    (∀ (s : String) (vl vc va : String → Bool), pyTrim s = "" →
      (validate_short_description s vl vc va).score = .num 0 ∧
      (validate_short_description s vl vc va).coaching ≠ none) := by
  refine ⟨?_, ?_, ?_⟩
  · intro n
    rcases n with _ | _ | _ | _ | n
    · decide
    · decide
    · decide
    · decide
    · show calculate_sd_score (n + 4) = _
      have h0 : calculate_sd_score (n + 4) = 0 := rfl
      rw [h0]
      have h1 : (8 : Int) - 2 * ((n : Int) + 4) ≤ 0 := by omega
      push_cast
      omega
  · intro s vl vc va h
    have hb : (pyTrim s == "") = false := by simpa using h
    simp only [validate_short_description, hb, Bool.false_eq_true, if_false]
    split <;> rfl
  · intro s vl vc va h
    simp [validate_short_description, h]

/-- Witness for C7: the score table at 5 issues, a concrete
well-formed short description, and a whitespace-only one. -/
theorem short_description_score_witness :
    (calculate_sd_score 5 = max 0 (8 - 2 * ((5 : Nat) : Int))) ∧
    (pyTrim "MARSH - London - VPN - user cannot connect" ≠ "" ∧
      (validate_short_description "MARSH - London - VPN - user cannot connect"
        (fun _ => true) (fun _ => true) (fun _ => true)).score =
        .num (calculate_sd_score
          (check_parts
            (parse_parts (pyTrim "MARSH - London - VPN - user cannot connect"))
            (fun _ => true) (fun _ => true) (fun _ => true)).length)) ∧
    (pyTrim "   " = "" ∧
      (validate_short_description "   "
        (fun _ => true) (fun _ => true) (fun _ => true)).score = .num 0 ∧
      (validate_short_description "   "
        (fun _ => true) (fun _ => true) (fun _ => true)).coaching ≠ none) :=
  ⟨short_description_score_table.1 5,
   ⟨by decide,
    short_description_score_table.2.1
      "MARSH - London - VPN - user cannot connect"
      (fun _ => true) (fun _ => true) (fun _ => true) (by decide)⟩,
   by
    have h : pyTrim "   " = "" := by decide
    exact ⟨h, short_description_score_table.2.2 "   "
      (fun _ => true) (fun _ => true) (fun _ => true) h⟩⟩

theorem batch_fold_counts
    (evalTicket : TicketRef → ClientState →
      Except String (List RuleResult) × ClientState) :
    ∀ (tickets : List TicketRef) (st : BatchLoopState),
      (tickets.foldl (batchStep evalTicket) st).results.length =
        st.results.length + tickets.length ∧
      (tickets.foldl (batchStep evalTicket) st).completed +
        (tickets.foldl (batchStep evalTicket) st).failed =
        st.completed + st.failed + tickets.length := by
  intro tickets
  induction tickets with
  | nil => intro st; simp
  | cons t rest ih =>
    intro st
    rw [List.foldl_cons]
    have hstep : (batchStep evalTicket st t).results.length =
        st.results.length + 1 ∧
        (batchStep evalTicket st t).completed + (batchStep evalTicket st t).failed =
          st.completed + st.failed + 1 := by
      rcases h : evalTicket t st.client with ⟨res, c2⟩
      cases res <;> simp [batchStep, h] <;> omega
    have key := ih (batchStep evalTicket st t)
    refine ⟨?_, ?_⟩
    · rw [key.1, hstep.1]
      simp [List.length_cons]
      omega
    · rw [key.2, hstep.2]
      simp [List.length_cons]
      omega

/-- Claim C8: both batch modes record one entry per input ticket and
never let a per-ticket error escape — any raised evaluation error
becomes a failure entry — so the result list length equals the input
length and successful plus failed equals total_tickets equals the
number of input tickets. -/
theorem batch_counts_invariant (client : ClientState)
    (tickets : List TicketRef)
    (evalTicket : TicketRef → ClientState →
      Except String (List RuleResult) × ClientState) :
    ((evaluate_batch client tickets evalTicket).1.results.length =
        tickets.length ∧
      (evaluate_batch client tickets evalTicket).1.successful +
        (evaluate_batch client tickets evalTicket).1.failed = tickets.length ∧
      (evaluate_batch client tickets evalTicket).1.total_tickets =
        tickets.length) ∧
    ((evaluate_batch_async client tickets evalTicket).1.results.length =
        tickets.length ∧
      (evaluate_batch_async client tickets evalTicket).1.successful +
        (evaluate_batch_async client tickets evalTicket).1.failed =
          tickets.length ∧
      (evaluate_batch_async client tickets evalTicket).1.total_tickets =
        tickets.length) := by
  have key := batch_fold_counts evalTicket tickets
    { client := (reset_usage client).2, results := [], completed := 0, failed := 0 }
  constructor
  · refine ⟨?_, ?_, rfl⟩
    · simpa [evaluate_batch] using key.1
    · simpa [evaluate_batch] using key.2
  · refine ⟨?_, ?_, rfl⟩
    · simpa [evaluate_batch_async] using key.1
    · simpa [evaluate_batch_async] using key.2

deriving instance DecidableEq for Except

/-- Claim C9 counterexample: with max_retries 3, delays (1, 2, 4) and
a transport that always raises a rate limit, complete makes exactly 3
attempts and sleeps 1, 2 and 4 seconds, but the raised
LLMRateLimitError carries no underlying cause: it is raised without a
`from` clause and its message records only the retry count. -/
theorem retry_exhaustion_counterexample :
    (complete (α := Unit) 3 [1, 2, 4] (fun _ => .error .rateLimit)).attempts = 3 ∧
    (complete (α := Unit) 3 [1, 2, 4] (fun _ => .error .rateLimit)).sleeps =
      [1, 2, 4] ∧
    (complete (α := Unit) 3 [1, 2, 4] (fun _ => .error .rateLimit)).result =
      .error (.rateLimitExceeded "Rate limit exceeded after 3 retries" none) ∧
    (match (complete (α := Unit) 3 [1, 2, 4]
        (fun _ => .error .rateLimit)).result with
      | .error e => e.causeOf
      | .ok _ => none) ≠ some TransportError.rateLimit := by
  decide

theorem exhaustedError_cause_none (n : Nat) (le : Option TransportError) :
    (exhaustedError n le).causeOf = none := by
  rcases le with _ | e
  · rfl
  · cases e <;> rfl

theorem completeFrom_zero {α : Type} (n : Nat) (delays : List ℚ)
    (f : Nat → Except TransportError α) (i : Nat)
    (le : Option TransportError) :
    completeFrom n delays f i 0 le = ⟨0, [], .error (exhaustedError n le)⟩ :=
  rfl

theorem completeFrom_succ_retry {α : Type} (n : Nat) (delays : List ℚ)
    (f : Nat → Except TransportError α) (i fuel : Nat)
    (le : Option TransportError) (e : TransportError)
    (he : f i = .error e) (hr : isRetryableTransport e = true) :
    completeFrom n delays f i (fuel + 1) le =
      ⟨(completeFrom n delays f (i + 1) fuel (some e)).attempts + 1,
       get_retry_delay delays i ::
         (completeFrom n delays f (i + 1) fuel (some e)).sleeps,
       (completeFrom n delays f (i + 1) fuel (some e)).result⟩ := by
  conv_lhs => rw [completeFrom]
  rw [he]
  simp [hr]

theorem completeFrom_exhausts {α : Type} (n : Nat) (delays : List ℚ)
    (f : Nat → Except TransportError α) :
    ∀ (fuel i : Nat) (le : Option TransportError), 0 < fuel →
      (∀ j, j < fuel → ∃ e, f (i + j) = .error e ∧
        isRetryableTransport e = true) →
      (completeFrom n delays f i fuel le).attempts = fuel ∧
      (completeFrom n delays f i fuel le).sleeps =
        (List.range fuel).map (fun j => get_retry_delay delays (i + j)) ∧
      ∃ e, f (i + fuel - 1) = .error e ∧
        (completeFrom n delays f i fuel le).result =
          .error (exhaustedError n (some e)) := by
  intro fuel
  induction fuel with
  | zero => intro i le hpos; omega
  | succ k ih =>
    intro i le hpos h
    obtain ⟨e, he, hr⟩ := h 0 (by omega)
    rw [Nat.add_zero] at he
    rw [completeFrom_succ_retry n delays f i k le e he hr]
    rcases Nat.eq_zero_or_pos k with hk | hk
    · subst hk
      rw [completeFrom_zero]
      refine ⟨rfl, ?_, e, by simpa using he, rfl⟩
      simp [List.range_succ]
    · have hshift : ∀ j, j < k → ∃ e2, f (i + 1 + j) = .error e2 ∧
          isRetryableTransport e2 = true := by
        intro j hj
        have hnext := h (j + 1) (by omega)
        have harith : i + (j + 1) = i + 1 + j := by omega
        rwa [harith] at hnext
      have key := ih (i + 1) (some e) hk hshift
      refine ⟨?_, ?_, ?_⟩
      · show (completeFrom n delays f (i + 1) k (some e)).attempts + 1 = k + 1
        rw [key.1]
      · show get_retry_delay delays i ::
          (completeFrom n delays f (i + 1) k (some e)).sleeps = _
        rw [key.2.1, List.range_succ_eq_map, List.map_cons, List.map_map]
        refine congrArg₂ _ (by rw [Nat.add_zero]) (List.map_congr_left ?_)
        intro j hj
        simp only [Function.comp_apply]
        exact congrArg _ (by omega)
      · obtain ⟨e2, he2, hres⟩ := key.2.2
        have harith : i + 1 + k - 1 = i + (k + 1) - 1 := by omega
        exact ⟨e2, by rwa [harith] at he2, hres⟩

/-- Claim C9 (amended): when every attempt raises a retryable
transient error, complete makes exactly max_retries attempts, sleeps
the delays of the configured sequence (doubling its last entry once
the sequence is exhausted, per get_retry_delay), and then raises the
typed error matching the last raised kind — but that error carries no
underlying cause: only its message (and only in the API-error case
the stringified last error) records what happened. -/
theorem retry_exhaustion_amended {α : Type} (maxRetries : Nat)
    (delays : List ℚ) (transport : Nat → Except TransportError α)
    (hpos : 0 < maxRetries)
    (hfail : ∀ j, j < maxRetries → ∃ e, transport j = .error e ∧
      isRetryableTransport e = true) :
    (complete maxRetries delays transport).attempts = maxRetries ∧
    (complete maxRetries delays transport).sleeps =
      (List.range maxRetries).map (get_retry_delay delays) ∧
    ∃ e, transport (maxRetries - 1) = .error e ∧
      (complete maxRetries delays transport).result =
        .error (exhaustedError maxRetries (some e)) ∧
      (exhaustedError maxRetries (some e)).causeOf = none := by
  have key := completeFrom_exhausts maxRetries delays transport maxRetries 0
    none hpos (by simpa using hfail)
  refine ⟨key.1, ?_, ?_⟩
  · rw [show complete maxRetries delays transport =
      completeFrom maxRetries delays transport 0 maxRetries none from rfl]
    rw [key.2.1]
    exact List.map_congr_left (fun j _ => by rw [Nat.zero_add])
  · obtain ⟨e, he, hres⟩ := key.2.2
    rw [Nat.zero_add] at he
    exact ⟨e, he, hres, exhaustedError_cause_none _ _⟩

/-- Witness for the amended C9 theorem: an always-timing-out
transport with max_retries 2 and delays (1, 2). -/
theorem retry_exhaustion_witness :
    (0 < 2) ∧
    (∀ j, j < 2 → ∃ e,
      (fun _ => (.error .timeout : Except TransportError Unit)) j = .error e ∧
      isRetryableTransport e = true) ∧
    ((complete 2 [1, 2]
        (fun _ => (.error .timeout : Except TransportError Unit))).attempts = 2 ∧
     (complete 2 [1, 2]
        (fun _ => (.error .timeout : Except TransportError Unit))).sleeps =
       (List.range 2).map (get_retry_delay [1, 2]) ∧
     ∃ e, (fun _ => (.error .timeout : Except TransportError Unit)) (2 - 1) =
        .error e ∧
      (complete 2 [1, 2]
        (fun _ => (.error .timeout : Except TransportError Unit))).result =
        .error (exhaustedError 2 (some e)) ∧
      (exhaustedError 2 (some e)).causeOf = none) :=
  ⟨by decide, fun _ _ => ⟨.timeout, rfl, rfl⟩,
   retry_exhaustion_amended 2 [1, 2]
     (fun _ => (.error .timeout : Except TransportError Unit))
     (by decide) (fun _ _ => ⟨.timeout, rfl, rfl⟩)⟩

/-- The accumulated usage of the C10 counterexample client. -/
def c10Usage : TokenUsage :=
  { prompt_tokens := 5, completion_tokens := 7,
    total_tokens := 12, request_count := 2 }

/-- Claim C10 counterexample: a client that has accumulated usage
(5 prompt, 7 completion, 12 total tokens over 2 requests) loses it
when a batch evaluation starts — evaluate_batch calls reset_usage
first, so even an empty batch leaves the counters zeroed rather than
intact. -/
theorem usage_reset_counterexample :
    ((evaluate_batch { token_usage := c10Usage } []
      (fun _ c => (.ok [], c))).2.token_usage ≠ c10Usage) ∧
    (evaluate_batch { token_usage := c10Usage } []
      (fun _ c => (.ok [], c))).2.token_usage = ({} : TokenUsage) := by
  decide

/-- Claim C10 (amended): the usage counters only grow under
TokenUsage.add and are cleared exactly by reset_usage, which returns
the accumulated value and installs a zero counter — but both batch
entry points call reset_usage on entry, so a batch run discards
whatever usage the client had accumulated before: its outcome is
independent of the prior counters, which are not left intact. -/
theorem usage_accumulation_amended :
    (∀ c : ClientState,
      reset_usage c = (c.token_usage, { token_usage := {} })) ∧
    (∀ (u : TokenUsage) (d : UsageDelta),
      u.prompt_tokens ≤ (u.addUsage d).prompt_tokens ∧
      u.completion_tokens ≤ (u.addUsage d).completion_tokens ∧
      u.total_tokens ≤ (u.addUsage d).total_tokens ∧
      (u.addUsage d).request_count = u.request_count + 1) ∧
    (∀ (c c2 : ClientState) (tickets : List TicketRef)
        (evalTicket : TicketRef → ClientState →
          Except String (List RuleResult) × ClientState),
      evaluate_batch c tickets evalTicket =
        evaluate_batch c2 tickets evalTicket ∧
      evaluate_batch_async c tickets evalTicket =
        evaluate_batch_async c2 tickets evalTicket) := by
  refine ⟨fun c => rfl, fun u d => ⟨?_, ?_, ?_, rfl⟩, fun c c2 tickets f => ⟨rfl, rfl⟩⟩
  · exact Nat.le_add_right _ _
  · exact Nat.le_add_right _ _
  · exact Nat.le_add_right _ _

end TQRS
